import Mathlib

/-!
Verification of the Watch-my-pod monitor controller
(`internal/monitor/controller.go`).

The development shallowly embeds the controller's pure logic:

* `checkPodBadState` — the bad-state classifier;
* `onAdd` / `onUpdate` edge detection, embedded as `emitsCandidate` over an
  event type (`created` / `updated` / `deleted`; no delete handler is
  registered in the source, so `deleted` emits nothing);
* the suppression cache of `checkAndTrigger` (a map from pod key to the
  last alert time, guarded by a mutex in the source), embedded as
  `checkAndMark` over `AlertCache`, with the window as a parameter; the
  source instantiates the window with the constant `alertWaitPeriod`;
* the dispatcher `triggerAnalysis`, embedded as a function from the
  environment's HTTP outcome to the trace of requests it issues;
* the interleaving of concurrent suppression checks, embedded as a small
  scheduler over per-invocation program counters (`TState`), mirroring the
  fact that the read section (RLock…RUnlock) and the write section
  (Lock…Unlock) of `checkAndTrigger` are two separate critical sections;
* the startup synchronisation barrier of `Run`, embedded as a step
  relation (`runStep`).

Timestamps are integers (seconds); `time.Since(last)` becomes `now - last`.
-/

namespace WatchMyPod

/-- One container status: the optional reason of a Waiting state and the
optional reason of a Terminated state, mirroring the
`State.Waiting`/`State.Terminated` pointers read by `checkPodBadState`. -/
structure ContainerStatus where
  waiting    : Option String
  terminated : Option String
deriving DecidableEq

/-- The fields of a pod observation read by the controller: namespace,
name, phase, and the ordered container statuses. -/
structure Pod where
  ns    : String
  name  : String
  phase : String
  containerStatuses : List ContainerStatus
deriving DecidableEq

/-- The waiting-state test of the loop body of `checkPodBadState`:
`reason == "CrashLoopBackOff" || reason == "ImagePullBackOff" || reason == "ErrImagePull"`. -/
def waitingBadReason (cs : ContainerStatus) : Option String :=
  match cs.waiting with
  | some r =>
      if r = "CrashLoopBackOff" ∨ r = "ImagePullBackOff" ∨ r = "ErrImagePull" then some r
      else none
  | none => none

/-- The terminated-state test of the loop body of `checkPodBadState`:
`Terminated.Reason == "Error"` yields the fixed string `"Terminated(Error)"`. -/
def terminatedBadReason (cs : ContainerStatus) : Option String :=
  match cs.terminated with
  | some r => if r = "Error" then some "Terminated(Error)" else none
  | none => none

/-- One iteration of the loop of `checkPodBadState`: the waiting check runs
before the terminated check on the same container status. -/
def containerBadReason (cs : ContainerStatus) : Option String :=
  match waitingBadReason cs with
  | some r => some r
  | none => terminatedBadReason cs

/-- The `for _, containerStatus := range pod.Status.ContainerStatuses` loop
of `checkPodBadState`: containers are scanned in order, returning at the
first match. -/
def scanContainers : List ContainerStatus → Bool × String
  | [] => (false, "")
  | cs :: rest =>
    match containerBadReason cs with
    | some r => (true, r)
    | none => scanContainers rest

/-- `checkPodBadState` from the source: the phase check
(`pod.Status.Phase == corev1.PodFailed`) precedes the container loop. -/
def checkPodBadState (pod : Pod) : Bool × String :=
  if pod.phase = "Failed" then (true, "PodFailed")
  else scanContainers pod.containerStatuses

/-- Written from the spec's words (§4.2), for refinement comparison with
`checkPodBadState` only: rule 2 (ANY container waiting with a bad reason)
is applied over the whole observation before rule 3 (ANY container
terminated with reason `Error`). -/
def classifySpec (pod : Pod) : Bool × String :=
  if pod.phase = "Failed" then (true, "PodFailed")
  else
    match pod.containerStatuses.findSome? waitingBadReason with
    | some r => (true, r)
    | none =>
      match pod.containerStatuses.findSome? terminatedBadReason with
      | some r => (true, r)
      | none => (false, "")

/-- The first-match reading of the container loop, phrased with
`List.findSome?`: the result is decided by the first container (in order)
matching either per-container rule. -/
def firstMatchResult (l : List ContainerStatus) : Bool × String :=
  match l.findSome? containerBadReason with
  | some r => (true, r)
  | none => (false, "")

/-- Pod events delivered by the informer. The source registers handlers
only for additions and updates (`AddFunc`, `UpdateFunc`). -/
inductive Event
| created (p : Pod)
| updated (oldPod newPod : Pod)
| deleted (p : Pod)
deriving DecidableEq

/-- Candidate emission of the event handlers:
`onAdd` triggers iff the new pod classifies bad;
`onUpdate` triggers iff `!wasBad && isBad`;
deletions have no handler, hence never emit. -/
def emitsCandidate : Event → Option (Pod × String)
  | .created p =>
    let b := checkPodBadState p
    if b.1 then some (p, b.2) else none
  | .updated o n =>
    let wasBad := (checkPodBadState o).1
    let b := checkPodBadState n
    if !wasBad && b.1 then some (n, b.2) else none
  | .deleted _ => none

/-- The updates along a chain of consecutive observations of one pod:
`consecUpdates p [q, r]` is `[updated p q, updated q r]`. -/
def consecUpdates : Pod → List Pod → List Event
  | _, [] => []
  | p, q :: rest => Event.updated p q :: consecUpdates q rest

/-- Outcome of the suppression check. -/
inductive Outcome
| Allowed
| Suppressed
deriving DecidableEq

/-- The suppression cache `alertCache map[string]time.Time`, embedded as a
total map from pod keys to an optional last-alert time. -/
def AlertCache : Type := String → Option Int

/-- The freshly initialised cache (`make(map[string]time.Time)`). -/
def AlertCache.empty : AlertCache := fun _ => none

/-- Map update `c.alertCache[podKey] = time.Now()`. -/
def AlertCache.set (c : AlertCache) (k : String) (t : Int) : AlertCache :=
  fun k' => if k' = k then some t else c k'

/-- `alertWaitPeriod = 2 * time.Hour`, in seconds. -/
def alertWaitPeriod : Int := 2 * 60 * 60

/-- `podKey := fmt.Sprintf("%s/%s", pod.Namespace, pod.Name)`. -/
def podKey (p : Pod) : String := p.ns ++ "/" ++ p.name

/-- The suppression logic of `checkAndTrigger`, with the window as a
parameter (the source uses the constant `alertWaitPeriod`): look up the
key; if present and `now - last < window`, suppress leaving the cache
unchanged; otherwise record `now` and allow. -/
def checkAndMark (cache : AlertCache) (key : String) (now window : Int) :
    Outcome × AlertCache :=
  match cache key with
  | some last =>
    if now - last < window then (Outcome.Suppressed, cache)
    else (Outcome.Allowed, cache.set key now)
  | none => (Outcome.Allowed, cache.set key now)

/-- The environment's response to one dispatch attempt: the defensive
`json.Marshal` and `http.NewRequest` error branches, a transport failure
of `client.Do`, or an HTTP response with a status code. -/
inductive HttpOutcome
| marshalError
| requestError
| transportError
| response (status : Int)
deriving DecidableEq

/-- One outbound HTTP request as built by `triggerAnalysis`. The body is
the key/value payload handed to `json.Marshal`. -/
structure PostRequest where
  method : String
  url : String
  body : List (String × String)
  contentType : String
  timeoutSeconds : Int
deriving DecidableEq

/-- What one call of `triggerAnalysis` did: the requests it issued and
whether it logged success. It never returns an error to its caller. -/
structure DispatchTrace where
  posts : List PostRequest
  success : Bool
deriving DecidableEq

/-- `agentURL := "http://localhost:8000/summarize-pod"`. -/
def agentURL : String := "http://localhost:8000/summarize-pod"

/-- The payload map literal of `triggerAnalysis`:
`map[string]string{"namespace": ..., "pod_name": ..., "reason": ...}`. -/
def alertPayload (pod : Pod) (reason : String) : List (String × String) :=
  [("namespace", pod.ns), ("pod_name", pod.name), ("reason", reason)]

/-- The request of `triggerAnalysis`: `POST agentURL`, the JSON payload,
`Content-Type: application/json`, `http.Client{Timeout: 5 * time.Second}`. -/
def alertPost (pod : Pod) (reason : String) : PostRequest :=
  { method := "POST", url := agentURL, body := alertPayload pod reason,
    contentType := "application/json", timeoutSeconds := 5 }

/-- `triggerAnalysis` as a function of the environment's HTTP outcome:
marshal or request-construction failure aborts before any request is
issued; a transport failure means the one request was attempted without a
response; otherwise the one request got a response, and success is
exactly status 200. Every branch logs and returns; nothing is retried and
no error propagates. -/
def triggerAnalysis (pod : Pod) (reason : String) (env : HttpOutcome) :
    DispatchTrace :=
  match env with
  | .marshalError => { posts := [], success := false }
  | .requestError => { posts := [], success := false }
  | .transportError => { posts := [alertPost pod reason], success := false }
  | .response s => { posts := [alertPost pod reason], success := s == 200 }

/-- `checkAndTrigger`: run the suppression check with the constant window
`alertWaitPeriod`; on `Suppressed` return with no dispatch; on `Allowed`
the cache write has already happened, then `triggerAnalysis` runs. -/
def checkAndTrigger (cache : AlertCache) (pod : Pod) (reason : String)
    (now : Int) (env : HttpOutcome) : AlertCache × Option DispatchTrace :=
  match checkAndMark cache (podKey pod) now alertWaitPeriod with
  | (Outcome.Suppressed, c) => (c, none)
  | (Outcome.Allowed, c) => (c, some (triggerAnalysis pod reason env))

/-- One delivered event, end to end: edge detection, then (for a
candidate) suppression check and dispatch. -/
def handleEvent (cache : AlertCache) (e : Event) (now : Int)
    (env : HttpOutcome) : AlertCache × Option DispatchTrace :=
  match emitsCandidate e with
  | some (p, r) => checkAndTrigger cache p r now env
  | none => (cache, none)

/-- Sequential (non-overlapping) invocations of the suppression check for
one key, one per listed timestamp, threading the cache through. -/
def seqCalls (cache : AlertCache) (key : String) (window : Int) :
    List Int → AlertCache × List Outcome
  | [] => (cache, [])
  | t :: ts =>
    let r := checkAndMark cache key t window
    let rest := seqCalls r.2 key window ts
    (rest.1, r.1 :: rest.2)

/-- Program counter of one in-flight invocation of the suppression check:
about to run the read section, about to run the write section, or done
with an outcome. -/
inductive TState
| toRead
| toWrite
| done (o : Outcome)
deriving DecidableEq

/-- One atomic step of one invocation of `checkAndTrigger`'s suppression
logic. The read section (RLock, look up, RUnlock, test) and the write
section (Lock, store `now`, Unlock) are separate critical sections in the
source, so they are separate atomic steps here; other invocations may
interleave between them. -/
def stepThread (key : String) (now window : Int) (cache : AlertCache) :
    TState → AlertCache × TState
  | .toRead =>
    match cache key with
    | some last =>
      if now - last < window then (cache, .done .Suppressed)
      else (cache, .toWrite)
    | none => (cache, .toWrite)
  | .toWrite => (cache.set key now, .done .Allowed)
  | .done o => (cache, .done o)

/-- Run a schedule (a list of thread indices) over the thread states,
advancing the chosen thread by one atomic step each time. -/
def runSched (key : String) (now window : Int) :
    AlertCache → List TState → List Nat → AlertCache × List TState
  | cache, ts, [] => (cache, ts)
  | cache, ts, i :: rest =>
    match ts[i]? with
    | some s =>
      let r := stepThread key now window cache s
      runSched key now window r.1 (ts.set i r.2) rest
    | none => runSched key now window cache ts rest

/-- Observable steps of the controller's `Run`: the initial cache sync
succeeding or failing, and the delivery of one event to the handlers
(which is where classification runs). -/
inductive RunStep
| syncOk
| syncFail
| deliver (e : Event)
deriving DecidableEq

/-- Phases of `Run`: waiting on `WaitForCacheSync`, running after a
successful sync, or halted. -/
inductive RunState
| syncing
| running
| halted
deriving DecidableEq

/-- Transition relation of `Run`. From the source: `WaitForCacheSync`
failing hits `log.Fatalf`, which terminates the process, so `halted` is
absorbing (no step is possible from it). Modelled from the spec: event
delivery to the handlers happens only after the initial synchronisation
barrier (§4.1) — the informer that delivers events is external to this
repository. -/
def runStep : RunState → RunStep → Option RunState
  | .syncing, .syncOk => some .running
  | .syncing, .syncFail => some .halted
  | .running, .deliver _ => some .running
  | _, _ => none

/-- Execute a list of run steps from a state; `none` when a step is not
possible. -/
def execRun : RunState → List RunStep → Option RunState
  | s, [] => some s
  | s, st :: rest =>
    match runStep s st with
    | some s' => execRun s' rest
    | none => none

/-! ## Helper lemmas about the classifier -/

/-- The container loop returns the first match in container order, with the
waiting check before the terminated check within one container. -/
theorem scanContainers_eq_firstMatch (l : List ContainerStatus) :
    scanContainers l = firstMatchResult l := by
  induction l with
  | nil => rfl
  | cons cs rest ih =>
    cases h : containerBadReason cs <;>
      simp [scanContainers, firstMatchResult, List.findSome?_cons, h, ih]

/-- Scanning for the per-container combined rule finds a match exactly when
scanning for either individual rule over the whole list would. -/
theorem scan_isSome_iff (l : List ContainerStatus) :
    (l.findSome? containerBadReason).isSome =
      ((l.findSome? waitingBadReason).isSome ||
        (l.findSome? terminatedBadReason).isSome) := by
  induction l with
  | nil => rfl
  | cons cs rest ih =>
    cases h1 : waitingBadReason cs <;> cases h2 : terminatedBadReason cs <;>
      simp [containerBadReason, List.findSome?_cons, h1, h2, ih]

/-- If no container matches either per-container rule, the loop falls
through to `(false, "")`. -/
theorem scanContainers_of_none (l : List ContainerStatus)
    (h : ∀ cs ∈ l, containerBadReason cs = none) :
    scanContainers l = (false, "") := by
  induction l with
  | nil => rfl
  | cons cs rest ih =>
    have hcs := h cs (List.mem_cons_self cs rest)
    simp only [scanContainers, hcs]
    exact ih fun c hc => h c (List.mem_cons_of_mem cs hc)

/-! ## Concrete observations used as witnesses and counterexamples -/

/-- Phase `Running`; container 0 terminated with reason `Error`, container
1 waiting with reason `CrashLoopBackOff`. -/
def mixedPod : Pod :=
  ⟨"default", "app", "Running", [⟨none, some "Error"⟩, ⟨some "CrashLoopBackOff", none⟩]⟩

/-- A pod whose phase is `Failed` with no container detail. -/
def failedPod : Pod := ⟨"default", "app", "Failed", []⟩

/-- A healthy pod: benign waiting and terminated reasons only. -/
def quietPod : Pod :=
  ⟨"default", "app", "Running", [⟨none, none⟩, ⟨some "ContainerCreating", some "Completed"⟩]⟩

/-! ## C3 — classifier precedence -/

/-- C3 counterexample: on a pod whose first container (in order) is
terminated with reason `Error` while a later container is waiting in
`CrashLoopBackOff`, the code returns `Terminated(Error)`, whereas the
claimed whole-observation precedence (rule 2 over rule 3, regardless of
container order) would return `CrashLoopBackOff`. -/
theorem C3_counterexample :
    checkPodBadState mixedPod = (true, "Terminated(Error)")
    ∧ classifySpec mixedPod = (true, "CrashLoopBackOff")
    ∧ checkPodBadState mixedPod ≠ classifySpec mixedPod := by decide

/-- C3 (amended): the classifier checks phase `Failed` first; otherwise it
scans containers in order and, within each container, checks the waiting
rule before the terminated rule, returning the first match; the bad/not-bad
verdict (though not always the reason string) agrees with the
whole-observation rule order of the spec. -/
theorem C3_first_match_per_container (p : Pod) :
    (checkPodBadState p).1 = (classifySpec p).1
    ∧ (p.phase = "Failed" → checkPodBadState p = (true, "PodFailed"))
    ∧ (p.phase ≠ "Failed" →
        checkPodBadState p = firstMatchResult p.containerStatuses) := by
  refine ⟨?_, ?_, ?_⟩
  · by_cases hp : p.phase = "Failed"
    · simp [checkPodBadState, classifySpec, hp]
    · have h1 := scanContainers_eq_firstMatch p.containerStatuses
      have h2 := scan_isSome_iff p.containerStatuses
      simp only [checkPodBadState, classifySpec, if_neg hp, h1, firstMatchResult]
      cases hc : p.containerStatuses.findSome? containerBadReason <;>
        cases hw : p.containerStatuses.findSome? waitingBadReason <;>
          cases ht : p.containerStatuses.findSome? terminatedBadReason <;>
            simp [hc, hw, ht] at h2 ⊢
  · intro hp; simp [checkPodBadState, hp]
  · intro hp
    simp only [checkPodBadState, if_neg hp]
    exact scanContainers_eq_firstMatch p.containerStatuses

/-- Witness for C3: the amended characterisation evaluated on concrete
pods. -/
theorem C3_first_match_per_container_witness :
    checkPodBadState mixedPod = firstMatchResult mixedPod.containerStatuses
    ∧ checkPodBadState failedPod = (true, "PodFailed") :=
  ⟨(C3_first_match_per_container mixedPod).2.2 (by decide),
   (C3_first_match_per_container failedPod).2.1 rfl⟩

/-! ## C7 — classifier totality and defaulting -/

/-- C7: the classifier is a total function (by construction in this
embedding, as in the source, where every branch returns); on any
observation whose phase is not `Failed` and whose containers all lack a
matching waiting reason and a matching terminated reason — in particular
when `containerStatuses` is empty or when the waiting/terminated
sub-fields are absent — it returns `(false, "")`. -/
theorem C7_classifier_default_not_bad (p : Pod)
    (hphase : p.phase ≠ "Failed")
    (hcs : ∀ cs ∈ p.containerStatuses,
      waitingBadReason cs = none ∧ terminatedBadReason cs = none) :
    checkPodBadState p = (false, "") := by
  simp only [checkPodBadState, if_neg hphase]
  refine scanContainers_of_none _ fun cs hmem => ?_
  have h := hcs cs hmem
  simp [containerBadReason, h.1, h.2]

/-- Witness for C7: a pod with an absent-fields container and a container
with benign reasons classifies as not bad. -/
theorem C7_classifier_default_not_bad_witness :
    checkPodBadState quietPod = (false, "") :=
  C7_classifier_default_not_bad quietPod (by decide) (by decide)

/-! ## C1 — edge detection -/

/-- C1: an `updated` event emits a candidate iff the old observation is not
bad and the new one is bad; a `created` event emits iff the new observation
is bad (old treated as not bad); `deleted` events never emit (no delete
handler is registered); and along any chain of updates in which the pod
stays continuously bad, no candidate at all is emitted. -/
theorem C1_edge_detection :
    (∀ o n, (emitsCandidate (Event.updated o n)).isSome ↔
      ((checkPodBadState o).1 = false ∧ (checkPodBadState n).1 = true))
    ∧ (∀ p, (emitsCandidate (Event.created p)).isSome ↔
      (checkPodBadState p).1 = true)
    ∧ (∀ p, emitsCandidate (Event.deleted p) = none)
    ∧ (∀ p ps, (checkPodBadState p).1 = true →
        (∀ q ∈ ps, (checkPodBadState q).1 = true) →
        (consecUpdates p ps).filterMap emitsCandidate = []) := by
  refine ⟨?_, ?_, ?_, ?_⟩
  · intro o n
    cases hb : (checkPodBadState o).1 <;> cases hb2 : (checkPodBadState n).1 <;>
      simp [emitsCandidate, hb, hb2]
  · intro p
    cases hb : (checkPodBadState p).1 <;> simp [emitsCandidate, hb]
  · intro p; rfl
  · intro p ps
    induction ps generalizing p with
    | nil => intro _ _; rfl
    | cons q rest ih =>
      intro hp hall
      have hq : (checkPodBadState q).1 = true :=
        hall q (List.mem_cons_self q rest)
      have hrest : ∀ r ∈ rest, (checkPodBadState r).1 = true :=
        fun r hr => hall r (List.mem_cons_of_mem q hr)
      simp only [consecUpdates, List.filterMap_cons]
      have hnone : emitsCandidate (Event.updated p q) = none := by
        simp [emitsCandidate, hp]
      simp only [hnone]
      exact ih q hq hrest

/-- Witness for C1: a continuously failed pod across two updates emits no
candidate, and its deletion emits none. -/
theorem C1_edge_detection_witness :
    emitsCandidate (Event.deleted failedPod) = none
    ∧ (consecUpdates failedPod [failedPod, failedPod]).filterMap
        emitsCandidate = [] :=
  ⟨C1_edge_detection.2.2.1 failedPod,
   C1_edge_detection.2.2.2 failedPod [failedPod, failedPod] (by decide)
     (by decide)⟩

/-! ## C2 — suppression window arithmetic -/

/-- C2: with a recorded time `t0` for a key, a check at `t1` within the
window suppresses and returns the cache unchanged; a check at `t2` at or
past the window allows, overwrites the record with `t2` and touches no
other key; a check for an unrecorded key allows and creates the record. -/
theorem C2_suppression_window :
    (∀ (cache : AlertCache) key t0 t1 window, cache key = some t0 →
      t1 - t0 < window →
      checkAndMark cache key t1 window = (Outcome.Suppressed, cache))
    ∧ (∀ (cache : AlertCache) key t0 t2 window, cache key = some t0 →
      window ≤ t2 - t0 →
      (checkAndMark cache key t2 window).1 = Outcome.Allowed
      ∧ (checkAndMark cache key t2 window).2 key = some t2
      ∧ ∀ k, k ≠ key → (checkAndMark cache key t2 window).2 k = cache k)
    ∧ (∀ (cache : AlertCache) key t window, cache key = none →
      (checkAndMark cache key t window).1 = Outcome.Allowed
      ∧ (checkAndMark cache key t window).2 key = some t
      ∧ ∀ k, k ≠ key → (checkAndMark cache key t window).2 k = cache k) := by
  refine ⟨?_, ?_, ?_⟩
  · intro cache key t0 t1 window h0 hlt
    simp [checkAndMark, h0, hlt]
  · intro cache key t0 t2 window h0 hge
    have hnlt : ¬(t2 - t0 < window) := not_lt.mpr hge
    refine ⟨?_, ?_, ?_⟩
    · simp [checkAndMark, h0, hnlt]
    · simp [checkAndMark, h0, hnlt, AlertCache.set]
    · intro k hk
      simp [checkAndMark, h0, hnlt, AlertCache.set, hk]
  · intro cache key t window h0
    refine ⟨?_, ?_, ?_⟩
    · simp [checkAndMark, h0]
    · simp [checkAndMark, h0, AlertCache.set]
    · intro k hk
      simp [checkAndMark, h0, AlertCache.set, hk]

/-- A cache holding one record: key `"default/app"` at time 0. -/
def cache0 : AlertCache := AlertCache.empty.set "default/app" 0

/-- Witness for C2: with a record at time 0 and a 7200-second window, a
check at 100 suppresses unchanged, a check at 9000 allows and re-records,
and a check for a fresh key allows. -/
theorem C2_suppression_window_witness :
    checkAndMark cache0 "default/app" 100 7200 = (Outcome.Suppressed, cache0)
    ∧ (checkAndMark cache0 "default/app" 9000 7200).2 "default/app" = some 9000
    ∧ (checkAndMark AlertCache.empty "x/y" 5 7200).1 = Outcome.Allowed :=
  ⟨C2_suppression_window.1 cache0 "default/app" 0 100 7200 (by decide) (by decide),
   (C2_suppression_window.2.1 cache0 "default/app" 0 9000 7200 (by decide)
     (by decide)).2.1,
   (C2_suppression_window.2.2 AlertCache.empty "x/y" 5 7200 (by decide)).1⟩

/-! ## C4 — the suppression record is committed before and regardless of
the dispatch outcome -/

/-- The cache produced by `checkAndTrigger` is exactly the cache produced
by its suppression check; the dispatch never touches it. -/
theorem checkAndTrigger_fst (cache : AlertCache) (pod : Pod)
    (reason : String) (now : Int) (env : HttpOutcome) :
    (checkAndTrigger cache pod reason now env).1 =
      (checkAndMark cache (podKey pod) now alertWaitPeriod).2 := by
  unfold checkAndTrigger
  rcases h : checkAndMark cache (podKey pod) now alertWaitPeriod with ⟨o, c⟩
  cases o <;> rfl

/-- An allowed check writes `now` at the key. -/
theorem checkAndMark_allowed_set (cache : AlertCache) (key : String)
    (now window : Int)
    (h : (checkAndMark cache key now window).1 = Outcome.Allowed) :
    (checkAndMark cache key now window).2 = cache.set key now := by
  unfold checkAndMark at h ⊢
  cases hc : cache key with
  | none => rfl
  | some last =>
    by_cases hlt : now - last < window
    · simp [hc, hlt] at h
    · simp [hc, hlt]

/-- C4: the cache after `checkAndTrigger` is independent of the HTTP
outcome (serialization failure, request failure, transport failure,
non-200, or success); when the check allowed, the record `now` stands
under every outcome, and any later check for the key within the window
suppresses and leaves the cache unchanged — even if no alert was
delivered. -/
theorem C4_commit_before_dispatch :
    (∀ (cache : AlertCache) pod reason now env env',
      (checkAndTrigger cache pod reason now env).1 =
        (checkAndTrigger cache pod reason now env').1)
    ∧ (∀ (cache : AlertCache) pod reason now env,
      (checkAndMark cache (podKey pod) now alertWaitPeriod).1 =
        Outcome.Allowed →
      (checkAndTrigger cache pod reason now env).1 (podKey pod) = some now
      ∧ ∀ t', t' - now < alertWaitPeriod →
          checkAndMark ((checkAndTrigger cache pod reason now env).1)
              (podKey pod) t' alertWaitPeriod =
            (Outcome.Suppressed,
              (checkAndTrigger cache pod reason now env).1)) := by
  constructor
  · intro cache pod reason now env env'
    rw [checkAndTrigger_fst, checkAndTrigger_fst]
  · intro cache pod reason now env hallow
    have hset := checkAndMark_allowed_set cache (podKey pod) now
      alertWaitPeriod hallow
    have hfst := checkAndTrigger_fst cache pod reason now env
    have hkey : (checkAndTrigger cache pod reason now env).1 (podKey pod) =
        some now := by
      rw [hfst, hset]; simp [AlertCache.set]
    refine ⟨hkey, fun t' hlt => ?_⟩
    simp [checkAndMark, hkey, hlt]

/-- Witness for C4: a first candidate at time 0 whose dispatch hits a
transport failure still leaves the record, and a second candidate at time
100 is suppressed. -/
theorem C4_commit_before_dispatch_witness :
    (checkAndTrigger AlertCache.empty failedPod "PodFailed" 0
      HttpOutcome.transportError).1 (podKey failedPod) = some 0
    ∧ checkAndMark ((checkAndTrigger AlertCache.empty failedPod "PodFailed"
        0 HttpOutcome.transportError).1) (podKey failedPod) 100
        alertWaitPeriod =
      (Outcome.Suppressed,
        (checkAndTrigger AlertCache.empty failedPod "PodFailed" 0
          HttpOutcome.transportError).1) := by
  have h := C4_commit_before_dispatch.2 AlertCache.empty failedPod
    "PodFailed" 0 HttpOutcome.transportError (by decide)
  exact ⟨h.1, h.2 100 (by decide)⟩

/-! ## C5 — dispatcher contract -/

/-- C5: past the (defensive, unreachable for this payload) marshal and
request-construction branches, exactly one POST is issued, to the
configured endpoint, with the three-field payload, the JSON content type
and the 5-second client timeout; at most one request is ever issued (no
retry); success is reported exactly for HTTP 200; and the function returns
a trace in every branch — no error propagates to the caller. -/
theorem C5_dispatcher_contract (pod : Pod) (reason : String) :
    (∀ env, (triggerAnalysis pod reason env).posts.length ≤ 1)
    ∧ (∀ env, env ≠ HttpOutcome.marshalError →
        env ≠ HttpOutcome.requestError →
        (triggerAnalysis pod reason env).posts = [alertPost pod reason])
    ∧ alertPost pod reason =
        { method := "POST", url := agentURL,
          body := [("namespace", pod.ns), ("pod_name", pod.name),
            ("reason", reason)],
          contentType := "application/json", timeoutSeconds := 5 }
    ∧ (∀ env, (triggerAnalysis pod reason env).success = true ↔
        env = HttpOutcome.response 200) := by
  refine ⟨?_, ?_, rfl, ?_⟩
  · intro env; cases env <;> simp [triggerAnalysis]
  · intro env h1 h2
    cases env with
    | marshalError => exact absurd rfl h1
    | requestError => exact absurd rfl h2
    | transportError => rfl
    | response s => rfl
  · intro env
    cases env <;> simp [triggerAnalysis]

/-- Witness for C5: a successful dispatch for a concrete failed pod issues
the single expected POST and reports success for status 200. -/
theorem C5_dispatcher_contract_witness :
    (triggerAnalysis failedPod "PodFailed" (HttpOutcome.response 200)).posts
      = [alertPost failedPod "PodFailed"]
    ∧ ((triggerAnalysis failedPod "PodFailed"
        (HttpOutcome.response 200)).success = true ↔
      (HttpOutcome.response 200 : HttpOutcome) = HttpOutcome.response 200) :=
  ⟨(C5_dispatcher_contract failedPod "PodFailed").2.1
      (HttpOutcome.response 200) (by decide) (by decide),
   (C5_dispatcher_contract failedPod "PodFailed").2.2.2
      (HttpOutcome.response 200)⟩

/-! ## C6 — concurrent suppression checks -/

/-- C6 counterexample: two invocations for the same key, interleaved so
that both read sections run before either write section (schedule thread
0 read, thread 1 read, thread 0 write, thread 1 write), both return
Allowed — not exactly one, refuting the claim at N = 2. -/
theorem C6_counterexample :
    (runSched "default/app" 0 7200 AlertCache.empty
        [TState.toRead, TState.toRead] [0, 1, 0, 1]).2 =
      [TState.done Outcome.Allowed, TState.done Outcome.Allowed]
    ∧ ((runSched "default/app" 0 7200 AlertCache.empty
        [TState.toRead, TState.toRead] [0, 1, 0, 1]).2.count
      (TState.done Outcome.Allowed)) = 2 := by decide

/-- Every run of suppressed checks leaves the cache untouched and returns
`Suppressed` each time, as long as the key's record covers every call. -/
theorem seqCalls_suppressed (key : String) (window t : Int) (ts : List Int)
    (cache : AlertCache) (hkey : cache key = some t)
    (hall : ∀ t' ∈ ts, t' - t < window) :
    (seqCalls cache key window ts).2 = ts.map (fun _ => Outcome.Suppressed)
    ∧ (seqCalls cache key window ts).1 = cache := by
  induction ts with
  | nil => exact ⟨rfl, rfl⟩
  | cons t' rest ih =>
    have hlt : t' - t < window := hall t' (List.mem_cons_self t' rest)
    have hstep : checkAndMark cache key t' window =
        (Outcome.Suppressed, cache) := by
      simp [checkAndMark, hkey, hlt]
    have hrest := ih fun u hu => hall u (List.mem_cons_of_mem t' hu)
    simp only [seqCalls, hstep, List.map_cons]
    exact ⟨by rw [hrest.1], hrest.2⟩

/-- C6 (amended): when the N invocations are sequential (non-overlapping),
the first at `t` finding no live record (none, or one expired by at least
the window) and the rest within the window of `t`, exactly the first is
Allowed and the other N−1 are Suppressed. (Under concurrent interleaving
the read and write happen in two separate critical sections, so more than
one invocation can be Allowed, as the counterexample shows.) -/
theorem C6_sequential_exactly_one_allowed (cache : AlertCache)
    (key : String) (window t : Int) (ts : List Int)
    (hfree : cache key = none ∨
      ∃ t0, cache key = some t0 ∧ window ≤ t - t0)
    (hall : ∀ t' ∈ ts, t' - t < window) :
    (seqCalls cache key window (t :: ts)).2 =
      Outcome.Allowed :: ts.map (fun _ => Outcome.Suppressed)
    ∧ (seqCalls cache key window (t :: ts)).2.count Outcome.Allowed = 1
    ∧ (seqCalls cache key window (t :: ts)).2.count Outcome.Suppressed =
      ts.length := by
  have hfirst : checkAndMark cache key t window =
      (Outcome.Allowed, cache.set key t) := by
    rcases hfree with h | ⟨t0, h, hge⟩
    · simp [checkAndMark, h]
    · simp [checkAndMark, h, not_lt.mpr hge]
  have hkey : (cache.set key t) key = some t := by simp [AlertCache.set]
  have hmain : (seqCalls cache key window (t :: ts)).2 =
      Outcome.Allowed :: ts.map (fun _ => Outcome.Suppressed) := by
    simp only [seqCalls, hfirst, List.cons.injEq, true_and]
    exact (seqCalls_suppressed key window t ts _ hkey hall).1
  refine ⟨hmain, ?_, ?_⟩
  · rw [hmain]
    simp [List.count_cons, List.count_replicate]
  · rw [hmain]
    simp [List.count_cons, List.count_replicate]

/-- Witness for C6 (amended): three sequential checks at 0, 1, 2 against an
empty cache with a 7200-second window: one Allowed, then two Suppressed. -/
theorem C6_sequential_exactly_one_allowed_witness :
    (seqCalls AlertCache.empty "default/app" 7200 [0, 1, 2]).2 =
      [Outcome.Allowed, Outcome.Suppressed, Outcome.Suppressed] := by
  have h := (C6_sequential_exactly_one_allowed AlertCache.empty
    "default/app" 7200 0 [1, 2] (Or.inl rfl) (by decide)).1
  simpa using h

/-! ## C8 — the window and endpoint constants -/

/-- C8: the window used by the suppression check is the constant
`alertWaitPeriod` = 2 hours (7200 s) and every request the dispatcher
issues goes to the constant `agentURL`; both equal the spec's default
values. (Neither is configurable in the source: `alertWaitPeriod` is a
`const` and the URL a literal; no configuration input exists.) -/
theorem C8_default_values :
    alertWaitPeriod = 2 * 60 * 60
    ∧ agentURL = "http://localhost:8000/summarize-pod"
    ∧ (∀ pod reason env,
        ((triggerAnalysis pod reason env).posts.all
          fun r => r.url == agentURL) = true)
    ∧ (∀ (cache : AlertCache) pod reason now env,
        ((checkAndTrigger cache pod reason now env).2 = none ↔
          (checkAndMark cache (podKey pod) now alertWaitPeriod).1 =
            Outcome.Suppressed)) := by
  refine ⟨rfl, rfl, ?_, ?_⟩
  · intro pod reason env
    cases env <;> simp [triggerAnalysis, alertPost]
  · intro cache pod reason now env
    unfold checkAndTrigger
    rcases h : checkAndMark cache (podKey pod) now alertWaitPeriod with ⟨o, c⟩
    cases o <;> simp

/-! ## C9 — the startup synchronisation barrier -/

/-- Nothing at all can run once the process has halted (`log.Fatalf`). -/
theorem execRun_halted (tr : List RunStep)
    (h : (execRun RunState.halted tr).isSome = true) : tr = [] := by
  cases tr with
  | nil => rfl
  | cons st rest => cases st <;> simp [execRun, runStep] at h

/-- C9: in every possible execution of `Run`, any event delivery (hence any
classification, which only happens inside the delivered-event handlers) is
preceded by a successful initial sync — the trace starts with `syncOk`;
and after a failed sync the process is terminated, so no step at all (in
particular no classification) follows. -/
theorem C9_sync_barrier :
    (∀ tr : List RunStep, (execRun RunState.syncing tr).isSome = true →
      ∀ e, RunStep.deliver e ∈ tr → tr.head? = some RunStep.syncOk)
    ∧ (∀ tr : List RunStep,
      (execRun RunState.syncing (RunStep.syncFail :: tr)).isSome = true →
      tr = []) := by
  have hfail : ∀ tr : List RunStep,
      (execRun RunState.syncing (RunStep.syncFail :: tr)).isSome = true →
      tr = [] := by
    intro tr h
    simp only [execRun, runStep] at h
    exact execRun_halted tr h
  refine ⟨?_, hfail⟩
  intro tr h e hmem
  cases tr with
  | nil => simp at hmem
  | cons st rest =>
    cases st with
    | syncOk => rfl
    | syncFail =>
      have := hfail rest h
      subst this
      simp at hmem
    | deliver e' => simp [execRun, runStep] at h

/-- Witness for C9: a concrete valid trace that delivers an event begins
with the successful sync. -/
theorem C9_sync_barrier_witness :
    ([RunStep.syncOk, RunStep.deliver (Event.created failedPod)] :
        List RunStep).head? = some RunStep.syncOk :=
  C9_sync_barrier.1 [RunStep.syncOk, RunStep.deliver (Event.created failedPod)]
    (by decide) (Event.created failedPod) (by decide)

/-! ## C10 — suppression state outlives pod deletion -/

/-- The suppression check either leaves the cache alone or overwrites just
the checked key with `now`. -/
theorem checkAndMark_snd_cases (cache : AlertCache) (key : String)
    (now window : Int) :
    (checkAndMark cache key now window).2 = cache ∨
      (checkAndMark cache key now window).2 = cache.set key now := by
  unfold checkAndMark
  cases hc : cache key with
  | none => exact Or.inr rfl
  | some last =>
    by_cases hlt : now - last < window
    · exact Or.inl (by simp [hlt])
    · exact Or.inr (by simp [hlt])

/-- Successive events folded through the handler. -/
def processEvents (cache : AlertCache) :
    List (Event × Int × HttpOutcome) → AlertCache
  | [] => cache
  | (e, t, env) :: rest => processEvents (handleEvent cache e t env).1 rest

/-- A key with a record still has one after any single event: the record
is either untouched or refreshed to the event's time, never removed. -/
theorem handleEvent_preserves_record (cache : AlertCache) (e : Event)
    (now : Int) (env : HttpOutcome) (key : String) (t : Int)
    (h : cache key = some t) :
    ∃ t', (handleEvent cache e now env).1 key = some t'
      ∧ (t' = t ∨ t' = now) := by
  unfold handleEvent
  cases hc : emitsCandidate e with
  | none => exact ⟨t, h, Or.inl rfl⟩
  | some pr =>
    rw [checkAndTrigger_fst]
    rcases checkAndMark_snd_cases cache (podKey pr.1) now alertWaitPeriod
      with hsame | hset
    · exact ⟨t, by rw [hsame, h], Or.inl rfl⟩
    · rw [hset]
      by_cases hk : key = podKey pr.1
      · exact ⟨now, by simp [AlertCache.set, hk], Or.inr rfl⟩
      · exact ⟨t, by simp [AlertCache.set, hk, h], Or.inl rfl⟩

/-- C10: the suppression cache is keyed by `namespace/name` only; a
`deleted` event does nothing at all (no delete handler is registered);
a check touches no key but its own pod's; a recorded key keeps a record
across any sequence of events for the whole process lifetime; and a pod
recreated under the same namespace and name whose first bad observation
falls within one window of the previous incarnation's recorded dispatch is
suppressed with no dispatch and no cache change. -/
theorem C10_suppression_survives_deletion :
    (∀ p : Pod, podKey p = p.ns ++ "/" ++ p.name)
    ∧ (∀ (cache : AlertCache) p now env,
        handleEvent cache (Event.deleted p) now env = (cache, none))
    ∧ (∀ (cache : AlertCache) p reason now env k, k ≠ podKey p →
        (checkAndTrigger cache p reason now env).1 k = cache k)
    ∧ (∀ (cache : AlertCache) evs key t, cache key = some t →
        ∃ t', processEvents cache evs key = some t')
    ∧ (∀ (cache : AlertCache) p now env t0,
        cache (podKey p) = some t0 → (checkPodBadState p).1 = true →
        now - t0 < alertWaitPeriod →
        handleEvent cache (Event.created p) now env = (cache, none)) := by
  refine ⟨fun _ => rfl, fun _ _ _ _ => rfl, ?_, ?_, ?_⟩
  · intro cache p reason now env k hk
    rw [checkAndTrigger_fst]
    rcases checkAndMark_snd_cases cache (podKey p) now alertWaitPeriod
      with hsame | hset
    · rw [hsame]
    · rw [hset]; simp [AlertCache.set, hk]
  · intro cache evs key t h
    induction evs generalizing cache t with
    | nil => exact ⟨t, h⟩
    | cons etv rest ih =>
      obtain ⟨t', ht', _⟩ := handleEvent_preserves_record cache etv.1
        etv.2.1 etv.2.2 key t h
      exact ih _ t' ht'
  · intro cache p now env t0 h0 hbad hlt
    have hcand : emitsCandidate (Event.created p) =
        some (p, (checkPodBadState p).2) := by
      simp [emitsCandidate, hbad]
    have hmark : checkAndMark cache (podKey p) now alertWaitPeriod =
        (Outcome.Suppressed, cache) := by
      simp [checkAndMark, h0, hlt]
    simp [handleEvent, hcand, checkAndTrigger, hmark]

/-- Witness for C10: with a record at time 0 for `default/app`, deleting
the pod changes nothing, and the recreated pod observed failed at time 100
(inside the 7200-second window) is suppressed with no dispatch. -/
theorem C10_suppression_survives_deletion_witness :
    handleEvent cache0 (Event.deleted failedPod) 100
        HttpOutcome.transportError = (cache0, none)
    ∧ handleEvent cache0 (Event.created failedPod) 100
        HttpOutcome.transportError = (cache0, none) :=
  ⟨C10_suppression_survives_deletion.2.1 cache0 failedPod 100
      HttpOutcome.transportError,
   C10_suppression_survives_deletion.2.2.2.2 cache0 failedPod 100
      HttpOutcome.transportError 0 (by decide) (by decide) (by decide)⟩

end WatchMyPod
